import Mathlib

/-!
Shallow embedding of the update-coordination subsystem of
`src/ad2web/updater/models.py` (classes `Updater`, `WebappUpdater`,
`SourceUpdater`, `DBUpdater`, `RequirementsUpdater`).

External tools (git, pip, alembic, the working set of installed
distributions, the requirements file) are modelled by explicit
environment records carrying the outcome of each external call; the
strings those records hold stand for the already-stripped stdout of the
corresponding tool invocation.  Python exceptions that the source
catches are modelled by `Option`/outcome constructors; exceptions the
source lets escape are modelled by `Except.error`.
-/

namespace AD2Web

/-- Result record built by `WebappUpdater.update`
(`{'status': ..., 'restart_required': ...}`). -/
structure UpdateResult where
  status : String
  restart_required : Bool
deriving DecidableEq, Repr

/-! ## DBUpdater (`models.py` lines 456-570) -/

/-- Outcome of `command.upgrade(self._config, rev)` for one pending revision.
`alreadyExists b` is an `sqlalchemy.exc.OperationalError` whose message
contains the substring `already exists`; `b` records whether the
`command.stamp` issued by `_stamp_database` then succeeds (`_stamp_database`
re-raises its own `OperationalError`).  `otherOpError` is any other
`OperationalError`. -/
inductive MigOutcome
  | ok
  | alreadyExists (stampOk : Bool)
  | otherOpError
deriving DecidableEq, Repr

/-- A command issued to the alembic migration engine. -/
inductive DBCall
  | upgrade (rev : String)
  | stamp (rev : String)
  | downgradeCmd (rev : Option String)
deriving DecidableEq, Repr

/-- Environment of one `DBUpdater.update()` run: the current and newest
revisions read at the last `refresh()`, and the ordered pending path
(`walk_revisions` output, reversed to oldest-first as the source does,
with the revision equal to `current` already filtered out), each paired
with the outcome of upgrading to it. -/
structure DBEnv where
  current : Option String
  newest : Option String
  pending : List (String × MigOutcome)
deriving Repr

/-- The revision loop of `DBUpdater.update`: `for rev in reversed(revision_list)`.
An `OperationalError` from `command.upgrade` is caught by the inner
`except`; only when its message contains `already exists` does anything
happen (a stamp).  A stamp failure re-raises and is caught by the outer
`except`, which returns `False`; any other `OperationalError` from an
upgrade is silently ignored and the loop continues. -/
def dbApplyPending : List (String × MigOutcome) → Bool × List DBCall
  | [] => (true, [])
  | (rev, out) :: rest =>
    match out with
    | MigOutcome.ok =>
        let r := dbApplyPending rest
        (r.1, DBCall.upgrade rev :: r.2)
    | MigOutcome.alreadyExists stampOk =>
        if stampOk then
          let r := dbApplyPending rest
          (r.1, DBCall.upgrade rev :: DBCall.stamp rev :: r.2)
        else
          (false, [DBCall.upgrade rev, DBCall.stamp rev])
    | MigOutcome.otherOpError =>
        let r := dbApplyPending rest
        (r.1, DBCall.upgrade rev :: r.2)

/-- `DBUpdater.update()` (lines 507-541): no-op success when
`self._current_revision == self._newest_revision`, otherwise walk the
pending revisions.  Returns the boolean result together with the trace of
migration-engine commands issued. -/
def dbUpdate (env : DBEnv) : Bool × List DBCall :=
  if env.current = env.newest then (true, [])
  else dbApplyPending env.pending

/-! ## RequirementsUpdater (`models.py` lines 573-687) -/

/-- Python `str.strip()`: drop leading and trailing whitespace. -/
def pyStrip (s : String) : String :=
  String.mk (((s.data.dropWhile Char.isWhitespace).reverse.dropWhile Char.isWhitespace).reverse)

/-- `RequirementsUpdater._check_requirements` (lines 638-654).
`file` is `none` when `open(self.path)` raises `IOError` (missing file),
otherwise the list of lines; `satisfied r` models
`working_set.find(Requirement.parse(r)) is not None` — i.e. an installed
distribution matches `r` by name with no version conflict
(`_check_requirement`, lines 656-663, returns that distribution or `None`).
Returns `(requirement_list, requirements_needed, return value)`. -/
def checkRequirements (file : Option (List String)) (satisfied : String → Bool) :
    List String × List String × Bool :=
  match file with
  | none => ([], [], false)
  | some lines =>
      let reqList := lines.map (fun r => pyStrip r)
      let needed := reqList.filter (fun r => satisfied r)
      (reqList, needed, !needed.isEmpty)

/-- `RequirementsUpdater.needs_update` (lines 584-585): `bool(self.requirements_needed)`. -/
def reqNeedsUpdate (requirements_needed : List String) : Bool :=
  !requirements_needed.isEmpty

/-- `RequirementsUpdater.update` (lines 587-598) together with
`_install_requirement` (lines 600-636): for each needed specifier in
order, `_install_requirement` first re-checks `_check_requirement` and
returns success without installing when the specifier is already
satisfied; otherwise it attempts the install (`installOk r` is the
outcome).  The first failed install aborts with `False`.  Returns the
result and the list of specifiers for which an install was attempted. -/
def requirementsUpdate (needed : List String) (satisfied installOk : String → Bool) :
    Bool × List String :=
  match needed with
  | [] => (true, [])
  | r :: rest =>
      if satisfied r then requirementsUpdate rest satisfied installOk
      else if installOk r then
        let res := requirementsUpdate rest satisfied installOk
        (res.1, r :: res.2)
      else (false, [r])

/-! ## SourceUpdater (`models.py` lines 206-453) -/

/-- Outcomes of the git invocations one `SourceUpdater` lifecycle makes.
Each `Option String` is the stripped stdout of the call, `none` when the
call raises `sh.ErrorReturnCode`.  `remoteLines` is the parsed output of
`git remote -v` — one `(name, path)` pair per tab-separated line — and is
`none` when that call raises `sh.ErrorReturnCode_128`. -/
structure GitEnv where
  gitAvailable : Bool
  remoteLines : Option (List (String × String))
  symbolicRef : Option String
  revParseHead : Option String
  revParseUpstream : Option String
  revList : Option String
deriving Repr

/-- Python `'@' in path` on a one-character needle: character membership. -/
def containsChar (s : String) (c : Char) : Bool :=
  s.data.any (fun x => x == c)

/-- `SourceUpdater._check_remotes` (lines 434-453): `True` when git is
absent; `False` when `git remote -v` raises `ErrorReturnCode_128` or some
remote named `origin` has `@` in its path. -/
def checkRemotes (env : GitEnv) : Bool :=
  if !env.gitAvailable then true
  else
    match env.remoteLines with
    | none => false
    | some rs => !(rs.any (fun r => r.1 == "origin" && containsChar r.2 '@'))

/-- `SourceUpdater._check_enabled` (lines 416-432): enabled iff git is
available and the remotes check passes; the status string is built by two
sequential overwrites, so an SSH origin wins over git-unavailable. -/
def checkEnabled (env : GitEnv) : Bool × String :=
  let git_available := env.gitAvailable
  let remote_okay := checkRemotes env
  let status := ""
  let status := if !git_available then "Disabled (Git is unavailable)" else status
  let status := if !remote_okay then "Disabled (SSH origin)" else status
  (git_available && remote_okay, status)

/-- Number of occurrences of character `c` in `s` (Python `s.count(c)`). -/
def countChar (s : String) (c : Char) : Nat :=
  (s.data.filter (fun x => x == c)).length

/-- `'{0} commit{1} behind/ahead'.format(n, '' if n == 1 else 's')`. -/
def commitClause (n : Nat) (word : String) : String :=
  toString n ++ " commit" ++ (if n == 1 then "" else "s") ++ " " ++ word

/-- `SourceUpdater._update_status` (lines 393-414) as a function of the
environment, the `status` parameter (every call site passes the default
`''`), and the cached commit counts.  When `_check_enabled` says disabled
the status is the disabled reason; otherwise the comma-joined clause list,
or `Up to date!` when the list is empty. -/
def updateStatus (env : GitEnv) (status : String) (behind ahead : Option Nat) : String :=
  let e := checkEnabled env
  if !e.1 then e.2
  else
    let temp_status :=
      (match behind with
       | some b => if b > 0 then [commitClause b "behind"] else []
       | none => []) ++
      (match ahead with
       | some a => if a > 0 then [commitClause a "ahead"] else []
       | none => [])
    if temp_status.isEmpty then "Up to date!"
    else status ++ String.intercalate ", " temp_status

/-- Mutable fields of a `SourceUpdater` instance (constructor,
lines 211-231).  `commits_behind`/`commits_ahead` are `Option` because
`needs_update` guards on `behind is not None`; the constructor initialises
them to the int `0`. -/
structure SourceState where
  branch : String
  local_revision : Option String
  remote_revision : Option String
  commits_ahead : Option Nat
  commits_behind : Option Nat
  enabled : Bool
  status : String
deriving Repr

/-- `SourceUpdater.__init__`: empty revision data, zero counts, enablement
and status from `_check_enabled`. -/
def sourceInit (env : GitEnv) : SourceState :=
  let e := checkEnabled env
  { branch := ""
    local_revision := none
    remote_revision := none
    commits_ahead := some 0
    commits_behind := some 0
    enabled := e.1
    status := e.2 }

/-- `SourceUpdater.needs_update` (lines 258-267): enabled, and the cached
behind count is not `None` and positive. -/
def SourceState.needsUpdate (st : SourceState) : Bool :=
  if st.enabled then
    match st.commits_behind with
    | some behind => decide (0 < behind)
    | none => false
  else false

/-- `SourceUpdater.refresh` (lines 269-285): `_update_status()` first (with
the stale counts); early return when disabled; otherwise fetch (no state),
then `_retrieve_branch`, `_retrieve_local_revision`,
`_retrieve_remote_revision`, `_retrieve_commit_count` (lines 327-374) in
order.  `_retrieve_commit_count` on success counts `<` and `>` in the
`rev-list --left-right` output and re-runs `_update_status`; on failure it
sets both counts to `0` and leaves the status alone.  The nested
`RequirementsUpdater.refresh` touches no `SourceState` field. -/
def sourceRefresh (st : SourceState) (env : GitEnv) : SourceState :=
  let st1 := { st with status := updateStatus env "" st.commits_behind st.commits_ahead }
  if !st1.enabled then st1
  else
    let st2 := { st1 with
      branch := match env.symbolicRef with
        | some s => s.replace "refs/heads/" ""
        | none => "" }
    let st3 := { st2 with local_revision := env.revParseHead }
    let st4 := { st3 with
      remote_revision := match env.revParseUpstream with
        | some s => if s = "" then none else some s
        | none => none }
    match env.revList with
    | some s =>
        let behind := countChar s '<'
        let ahead := countChar s '>'
        { st4 with
          commits_behind := some behind
          commits_ahead := some ahead
          status := updateStatus env "" (some behind) (some ahead) }
    | none => { st4 with commits_behind := some 0, commits_ahead := some 0 }

/-! ## WebappUpdater (`models.py` lines 80-203) -/

/-- Calls `WebappUpdater.update` makes on its nested updaters. -/
inductive WCall
  | sourceUpdate
  | dbRefresh
  | dbUpdateCall
  | dbDowngrade (rev : Option String)
  | sourceReset (rev : Option String)
deriving DecidableEq, Repr

/-- Environment of one `WebappUpdater.update()` run: the enablement flag
(hard-wired `True` in the constructor, line 95), the snapshots
`self._source_updater.local_revision` and
`self._db_updater.current_revision` taken before acting (lines 174-175),
and the outcomes of the external stages.  `downgradeRaises` records
whether `command.downgrade` raises an `OperationalError`, which
`DBUpdater.downgrade` (lines 543-549) re-raises and nothing in
`WebappUpdater.update` catches. -/
structure WebappEnv where
  enabled : Bool
  preGitRev : Option String
  preDbRev : Option String
  sourceUpdateOk : Bool
  dbUpdateOk : Bool
  downgradeRaises : Bool
deriving Repr

/-- `WebappUpdater.update` (lines 158-203).  `git_succeeded` and
`db_succeeded` start `False`; the DB stage runs only when the source stage
succeeded; on `not git_succeeded or not db_succeeded` the code downgrades
the DB to the pre-update snapshot whenever `not db_succeeded` (which holds
on every failure path) and then resets the source to its snapshot, and
returns `{'status': 'FAIL', 'restart_required': False}`; a raise from
`downgrade` escapes `update` before the reset.  Returns the outcome
(`Except.error` when an exception propagates) and the call trace. -/
def webappUpdate (env : WebappEnv) : Except String UpdateResult × List WCall :=
  let ret : UpdateResult := { status := "FAIL", restart_required := false }
  if !env.enabled then (Except.ok ret, [])
  else
    let git_succeeded := env.sourceUpdateOk
    let trace := [WCall.sourceUpdate]
    let dbStage :=
      if git_succeeded then (env.dbUpdateOk, trace ++ [WCall.dbRefresh, WCall.dbUpdateCall])
      else (false, trace)
    let db_succeeded := dbStage.1
    let trace := dbStage.2
    if !git_succeeded || !db_succeeded then
      let trace := if !db_succeeded then trace ++ [WCall.dbDowngrade env.preDbRev] else trace
      if !db_succeeded && env.downgradeRaises then
        (Except.error "OperationalError", trace)
      else
        let trace :=
          if !git_succeeded || !db_succeeded then trace ++ [WCall.sourceReset env.preGitRev]
          else trace
        (Except.ok ret, trace)
    else
      (Except.ok { status := "PASS", restart_required := true }, trace)

/-! ## Updater (`models.py` lines 25-77) -/

/-- What `Updater.update` needs of a registered component: its
`needs_update` answer and the result its `update()` returns. -/
structure ComponentSpec where
  needs_update : Bool
  result : UpdateResult
deriving DecidableEq, Repr

/-- Python dict assignment `d[k] = v`: overwrite in place or append. -/
def dictSet (d : List (Option String × UpdateResult)) (k : Option String)
    (v : UpdateResult) : List (Option String × UpdateResult) :=
  if d.any (fun kv => kv.1 == k) then
    d.map (fun kv => if kv.1 == k then (k, v) else kv)
  else d ++ [(k, v)]

/-- `Updater.update` (lines 53-77).  With a name, `ret[component_name] =
component.update()` for that component (`none` models the `KeyError` on an
unknown name).  With the name omitted, the loop updates every component
whose `needs_update` holds but stores each result under `component_name`,
the parameter — which is `None` in this branch. -/
def updaterUpdate (components : List (String × ComponentSpec))
    (component_name : Option String) :
    Option (List (Option String × UpdateResult)) :=
  match component_name with
  | some nm =>
      match components.lookup nm with
      | some c => some (dictSet [] (some nm) c.result)
      | none => none
  | none =>
      some (components.foldl
        (fun ret nc => if nc.2.needs_update then dictSet ret none nc.2.result else ret)
        [])

/-! ## Claims -/

/-- C1 (amended): `WebappUpdater.update()` with both stages succeeding returns
`{status: PASS, restart_required: true}`; with the source stage succeeding,
the DB stage failing, and the compensating downgrade not itself raising,
`DBUpdater.downgrade` is called with the pre-update DB revision,
`SourceUpdater.reset` is called with the pre-update source revision, and the
returned record is `{status: FAIL, restart_required: false}`. -/
theorem webappUpdate_outcomes (env : WebappEnv) (hen : env.enabled = true) :
    (env.sourceUpdateOk = true → env.dbUpdateOk = true →
      webappUpdate env =
        (Except.ok { status := "PASS", restart_required := true },
         [WCall.sourceUpdate, WCall.dbRefresh, WCall.dbUpdateCall])) ∧
    (env.sourceUpdateOk = true → env.dbUpdateOk = false → env.downgradeRaises = false →
      webappUpdate env =
        (Except.ok { status := "FAIL", restart_required := false },
         [WCall.sourceUpdate, WCall.dbRefresh, WCall.dbUpdateCall,
          WCall.dbDowngrade env.preDbRev, WCall.sourceReset env.preGitRev])) := by
  obtain ⟨en, pg, pd, src, db, dg⟩ := env
  subst hen
  constructor
  · intro hs hd
    subst hs hd
    rfl
  · intro hs hd hg
    subst hs hd hg
    rfl

/-- C1 witness: both parts of `webappUpdate_outcomes` instantiated at
concrete environments. -/
theorem webappUpdate_outcomes_witness :
    webappUpdate ⟨true, some "gw", some "dw", true, true, false⟩ =
      (Except.ok { status := "PASS", restart_required := true },
       [WCall.sourceUpdate, WCall.dbRefresh, WCall.dbUpdateCall]) ∧
    webappUpdate ⟨true, some "gw", some "dw", true, false, false⟩ =
      (Except.ok { status := "FAIL", restart_required := false },
       [WCall.sourceUpdate, WCall.dbRefresh, WCall.dbUpdateCall,
        WCall.dbDowngrade (some "dw"), WCall.sourceReset (some "gw")]) :=
  ⟨(webappUpdate_outcomes ⟨true, some "gw", some "dw", true, true, false⟩ rfl).1 rfl rfl,
   (webappUpdate_outcomes ⟨true, some "gw", some "dw", true, false, false⟩ rfl).2 rfl rfl rfl⟩

/-- C1 counterexample: in the execution where the source update succeeds, the
DB update fails, and the compensating downgrade raises, the downgrade is
called with the pre-update DB revision but `sourceReset` is never reached and
no `{status: FAIL, restart_required: false}` record is returned (the
exception propagates), so the claim as stated fails. -/
theorem webappUpdate_dbfail_counterexample :
    ((⟨true, some "g0", some "d0", true, false, true⟩ : WebappEnv).sourceUpdateOk = true ∧
     (⟨true, some "g0", some "d0", true, false, true⟩ : WebappEnv).dbUpdateOk = false ∧
     WCall.dbDowngrade (some "d0")
       ∈ (webappUpdate ⟨true, some "g0", some "d0", true, false, true⟩).2) ∧
    ¬(WCall.sourceReset (some "g0")
        ∈ (webappUpdate ⟨true, some "g0", some "d0", true, false, true⟩).2 ∧
      (webappUpdate ⟨true, some "g0", some "d0", true, false, true⟩).1
        = Except.ok { status := "FAIL", restart_required := false }) :=
  ⟨⟨rfl, rfl, by decide⟩, fun h => absurd h.1 (by decide)⟩

/-- C2: the inverted `is not None` test in `_check_requirements` appends every
*satisfied* specifier to `requirements_needed`, so on a one-line file whose
specifier is satisfied the needed subset is the whole file and
`needs_update()` returns `true` — contradicting the claim; `update()` still
performs no installs and succeeds because `_install_requirement` skips
satisfied specifiers. -/
theorem satisfied_requirements_marked_needed :
    checkRequirements (some ["flask"]) (fun _ => true) = (["flask"], ["flask"], true) ∧
    reqNeedsUpdate (checkRequirements (some ["flask"]) (fun _ => true)).2.1 = true ∧
    requirementsUpdate (checkRequirements (some ["flask"]) (fun _ => true)).2.1
      (fun _ => true) (fun _ => false) = (true, []) :=
  ⟨rfl, rfl, rfl⟩

/-- C3: a pending migration that fails with an `OperationalError` whose
message does not contain `already exists` is silently swallowed by the inner
`except` — the walk continues with the next revision and `update()` returns
`true`, contradicting the claim that any other migration failure aborts the
walk with `false`.  (The second conjunct shows the `already exists` → stamp →
continue path the claim correctly describes.) -/
theorem dbUpdate_swallows_other_operational_error :
    dbUpdate { current := some "r0", newest := some "r2",
               pending := [("r1", MigOutcome.otherOpError), ("r2", MigOutcome.ok)] }
      = (true, [DBCall.upgrade "r1", DBCall.upgrade "r2"]) ∧
    dbUpdate { current := some "r0", newest := some "r2",
               pending := [("r1", MigOutcome.alreadyExists true), ("r2", MigOutcome.ok)] }
      = (true, [DBCall.upgrade "r1", DBCall.stamp "r1", DBCall.upgrade "r2"]) :=
  ⟨rfl, rfl⟩

/-- C4: after `SourceUpdater.refresh()` the behind count is always known, and
`needs_update` holds iff the updater is enabled and the computed behind count
(the number of `<` markers in the `rev-list --left-right` output, `0` when
the call fails) is positive — for every environment, hence for all
combinations of ahead/behind counts. -/
theorem sourceRefresh_needsUpdate_iff_behind_pos (env : GitEnv) :
    ((sourceRefresh (sourceInit env) env).commits_behind).isSome = true ∧
    (sourceRefresh (sourceInit env) env).needsUpdate
      = ((sourceInit env).enabled &&
         decide (0 < (match env.revList with
                      | some s => countChar s '<'
                      | none => 0))) := by
  cases hen : (checkEnabled env).1 with
  | false =>
      unfold sourceRefresh sourceInit SourceState.needsUpdate
      simp [hen]
  | true =>
      cases hrl : env.revList with
      | none =>
          unfold sourceRefresh sourceInit SourceState.needsUpdate
          simp [hen, hrl]
      | some s =>
          unfold sourceRefresh sourceInit SourceState.needsUpdate
          simp [hen, hrl]

/-- C5: `_update_status` produces the disabled reason whenever
`_check_enabled` reports disabled (shown for both an SSH origin and a missing
git), and when enabled produces exactly `Up to date!` for behind=0/ahead=0,
`1 commit behind` for behind=1/ahead=0, and
`2 commits behind, 1 commit ahead` for behind=2/ahead=1 — singular/plural
exact, comma-joined, behind clause first. -/
theorem source_status_text :
    (∀ b a : Option Nat,
      updateStatus ⟨true, some [("origin", "git@github.com:user/repo.git")],
                    none, none, none, none⟩ "" b a
        = "Disabled (SSH origin)") ∧
    (∀ b a : Option Nat,
      updateStatus ⟨false, none, none, none, none, none⟩ "" b a
        = "Disabled (Git is unavailable)") ∧
    updateStatus ⟨true, some [("origin", "https://github.com/user/repo.git")],
                  none, none, none, none⟩ "" (some 0) (some 0) = "Up to date!" ∧
    updateStatus ⟨true, some [("origin", "https://github.com/user/repo.git")],
                  none, none, none, none⟩ "" (some 1) (some 0) = "1 commit behind" ∧
    updateStatus ⟨true, some [("origin", "https://github.com/user/repo.git")],
                  none, none, none, none⟩ "" (some 2) (some 1)
      = "2 commits behind, 1 commit ahead" :=
  ⟨fun _ _ => rfl, fun _ _ => rfl, rfl, rfl, rfl⟩

/-- C6: when some remote named `origin` has `@` in its path, the constructed
and refreshed `SourceUpdater` reports the `Disabled (SSH origin)` status and
`needs_update` is false — for every environment with such a remote, hence
regardless of the actual ahead/behind state. -/
theorem ssh_origin_disables_source (env : GitEnv) (rs : List (String × String))
    (hgit : env.gitAvailable = true)
    (hrem : env.remoteLines = some rs)
    (hssh : rs.any (fun r => r.1 == "origin" && containsChar r.2 '@') = true) :
    (sourceRefresh (sourceInit env) env).status = "Disabled (SSH origin)" ∧
    (sourceRefresh (sourceInit env) env).needsUpdate = false := by
  have hcr : checkRemotes env = false := by
    unfold checkRemotes
    rw [hgit, hrem]
    simp [hssh]
  have hce : checkEnabled env = (false, "Disabled (SSH origin)") := by
    unfold checkEnabled
    rw [hcr, hgit]
    simp
  unfold sourceRefresh sourceInit SourceState.needsUpdate updateStatus
  simp [hce]

/-- C6 witness: `ssh_origin_disables_source` at an environment whose
`rev-list` output would yield 3 commits behind and 1 ahead. -/
theorem ssh_origin_disables_source_witness :
    (sourceRefresh
       (sourceInit ⟨true, some [("origin", "git@github.com:user/repo.git")],
                    some "refs/heads/master", some "aaa", some "bbb", some "<<<>"⟩)
       ⟨true, some [("origin", "git@github.com:user/repo.git")],
        some "refs/heads/master", some "aaa", some "bbb", some "<<<>"⟩).status
      = "Disabled (SSH origin)" ∧
    (sourceRefresh
       (sourceInit ⟨true, some [("origin", "git@github.com:user/repo.git")],
                    some "refs/heads/master", some "aaa", some "bbb", some "<<<>"⟩)
       ⟨true, some [("origin", "git@github.com:user/repo.git")],
        some "refs/heads/master", some "aaa", some "bbb", some "<<<>"⟩).needsUpdate
      = false :=
  ssh_origin_disables_source
    ⟨true, some [("origin", "git@github.com:user/repo.git")],
     some "refs/heads/master", some "aaa", some "bbb", some "<<<>"⟩
    [("origin", "git@github.com:user/repo.git")] rfl rfl (by decide)

/-- C7: `DBUpdater.update()` with the current revision equal to the newest
revision returns success and issues no migration-engine command at all. -/
theorem dbUpdate_current_eq_newest_noop (env : DBEnv) (h : env.current = env.newest) :
    dbUpdate env = (true, []) := by
  unfold dbUpdate
  simp [h]

/-- C7 witness: `dbUpdate_current_eq_newest_noop` at a concrete environment. -/
theorem dbUpdate_current_eq_newest_noop_witness :
    dbUpdate { current := some "r7", newest := some "r7",
               pending := [("r8", MigOutcome.ok)] } = (true, []) :=
  dbUpdate_current_eq_newest_noop
    { current := some "r7", newest := some "r7", pending := [("r8", MigOutcome.ok)] } rfl

/-- C8: with the name omitted, `Updater.update` stores every result under
`ret[component_name]` where `component_name` is the omitted parameter, so two
components both needing an update yield a single `none`-keyed entry holding
only the last component's result — the first result is lost, contradicting
the claim; the named branch (second conjunct) behaves as claimed. -/
theorem updaterUpdate_all_branch_key_collision :
    updaterUpdate
      [("webapp", { needs_update := true, result := { status := "PASS", restart_required := true } }),
       ("ser2sock", { needs_update := true, result := { status := "FAIL", restart_required := false } })]
      none
      = some [(none, { status := "FAIL", restart_required := false })] ∧
    updaterUpdate
      [("webapp", { needs_update := true, result := { status := "PASS", restart_required := true } }),
       ("ser2sock", { needs_update := true, result := { status := "FAIL", restart_required := false } })]
      (some "webapp")
      = some [(some "webapp", { status := "PASS", restart_required := true })] :=
  ⟨rfl, rfl⟩

/-- C9: `_check_requirements` on a missing requirements file returns normally
with both the specifier list and the needed subset empty, `needs_update()`
false, and the same return value as an empty (nothing-to-update) file — not
an error. -/
theorem missing_requirements_file_no_error (satisfied : String → Bool) :
    checkRequirements none satisfied = ([], [], false) ∧
    reqNeedsUpdate (checkRequirements none satisfied).2.1 = false ∧
    (checkRequirements none satisfied).2.2 = (checkRequirements (some []) satisfied).2.2 :=
  ⟨rfl, rfl, rfl⟩

/-- C10: whenever the source stage of `WebappUpdater.update()` fails,
`DBUpdater.downgrade` is still invoked with the pre-update DB revision even
though the DB update was never attempted, and when the downgrade raises the
exception propagates out of `update()` instead of a
`{status: FAIL, restart_required: false}` record being returned. -/
theorem webappUpdate_source_fail_still_downgrades (env : WebappEnv)
    (hen : env.enabled = true) (hsrc : env.sourceUpdateOk = false) :
    WCall.dbDowngrade env.preDbRev ∈ (webappUpdate env).2 ∧
    WCall.dbUpdateCall ∉ (webappUpdate env).2 ∧
    (env.downgradeRaises = true →
      (webappUpdate env).1 = Except.error "OperationalError") := by
  obtain ⟨en, pg, pd, src, db, dg⟩ := env
  subst hen hsrc
  cases dg
  · refine ⟨?_, ?_, ?_⟩
    · show WCall.dbDowngrade pd ∈ [WCall.sourceUpdate, WCall.dbDowngrade pd, WCall.sourceReset pg]
      simp
    · show WCall.dbUpdateCall ∉ [WCall.sourceUpdate, WCall.dbDowngrade pd, WCall.sourceReset pg]
      simp
    · intro h
      exact absurd h (by simp)
  · refine ⟨?_, ?_, fun _ => rfl⟩
    · show WCall.dbDowngrade pd ∈ [WCall.sourceUpdate, WCall.dbDowngrade pd]
      simp
    · show WCall.dbUpdateCall ∉ [WCall.sourceUpdate, WCall.dbDowngrade pd]
      simp

/-- C10 witness: `webappUpdate_source_fail_still_downgrades` at a concrete
environment whose downgrade raises. -/
theorem webappUpdate_source_fail_still_downgrades_witness :
    WCall.dbDowngrade (some "d1")
      ∈ (webappUpdate ⟨true, some "g1", some "d1", false, false, true⟩).2 ∧
    (webappUpdate ⟨true, some "g1", some "d1", false, false, true⟩).1
      = Except.error "OperationalError" :=
  ⟨(webappUpdate_source_fail_still_downgrades
      ⟨true, some "g1", some "d1", false, false, true⟩ rfl rfl).1,
   (webappUpdate_source_fail_still_downgrades
      ⟨true, some "g1", some "d1", false, false, true⟩ rfl rfl).2.2 rfl⟩

end AD2Web
